import Mathlib

/-!
Verification of `Firestore/core/src/util/firebase_platform_logging_noop.h`.

The header defines `FirebasePlatformLoggingNoOp`, a subclass of the abstract
`FirebasePlatformLogging` interface whose five `const` accessors return fixed
constants, and declares a factory `CreateNoOpFirebasePlatformLogging` that
returns a `std::unique_ptr` to a fresh instance.

The class has no data members, so an instance is embedded as a structure with
no fields; each accessor is a pure function of the instance, exactly as the
`const` member functions are in the source.  Call sequences are modelled by
threading the instance state through each call explicitly, so that statements
about state drift across a sequence of calls are expressible.
-/

/-- The class `FirebasePlatformLoggingNoOp`.  It declares no data members, so
its state carries no information. -/
structure FirebasePlatformLoggingNoOp where

/-- `bool IsLoggingAvailable() const override { return false; }` -/
def FirebasePlatformLoggingNoOp.IsLoggingAvailable
    (_ : FirebasePlatformLoggingNoOp) : Bool := false

/-- `std::string GetUserAgent() const override { return ""; }` -/
def FirebasePlatformLoggingNoOp.GetUserAgent
    (_ : FirebasePlatformLoggingNoOp) : String := ""

/-- `std::string GetHeartbeat() const override { return ""; }` -/
def FirebasePlatformLoggingNoOp.GetHeartbeat
    (_ : FirebasePlatformLoggingNoOp) : String := ""

/-- `bool IsGmpAppIdAvailable() const override { return false; }` -/
def FirebasePlatformLoggingNoOp.IsGmpAppIdAvailable
    (_ : FirebasePlatformLoggingNoOp) : Bool := false

/-- `std::string GetGmpAppId() const override { return ""; }` -/
def FirebasePlatformLoggingNoOp.GetGmpAppId
    (_ : FirebasePlatformLoggingNoOp) : String := ""

/-- The five public accessors of `FirebasePlatformLoggingNoOp`. -/
inductive Accessor
  | isLoggingAvailable
  | getUserAgent
  | getHeartbeat
  | isGmpAppIdAvailable
  | getGmpAppId
deriving DecidableEq, Repr

/-- A value returned by an accessor: two of them return `bool`, three return
`std::string`. -/
inductive AccessorResult
  | ofBool (b : Bool)
  | ofString (s : String)
deriving DecidableEq, Repr

/-- Invoking one accessor on an instance.  The member functions are `const`
and their bodies are single `return` statements of constants, so the call
produces its result and hands back the instance state it was given. -/
def callAccessor (x : FirebasePlatformLoggingNoOp) (a : Accessor) :
    AccessorResult × FirebasePlatformLoggingNoOp :=
  match a with
  | .isLoggingAvailable => (.ofBool x.IsLoggingAvailable, x)
  | .getUserAgent => (.ofString x.GetUserAgent, x)
  | .getHeartbeat => (.ofString x.GetHeartbeat, x)
  | .isGmpAppIdAvailable => (.ofBool x.IsGmpAppIdAvailable, x)
  | .getGmpAppId => (.ofString x.GetGmpAppId, x)

/-- Running a finite sequence of accessor calls on one instance, threading the
instance state from each call to the next and collecting the results in
order. -/
def runCalls (x : FirebasePlatformLoggingNoOp) :
    List Accessor → List AccessorResult × FirebasePlatformLoggingNoOp
  | [] => ([], x)
  | a :: rest =>
      let step := callAccessor x a
      let tail := runCalls step.2 rest
      (step.1 :: tail.1, tail.2)

/-- Modelled from the spec: the body of `CreateNoOpFirebasePlatformLogging`
is not in the provided source (the header only declares it).  Per the spec it
"allocates and returns a new instance; the caller receives exclusive
ownership", and "never returns a null/absent handle under normal
(non-out-of-memory) conditions".  The returned `std::unique_ptr`, which can
in principle be null, is embedded as an `Option`; the factory returns `some`
of a freshly constructed instance. -/
def CreateNoOpFirebasePlatformLogging : Option FirebasePlatformLoggingNoOp :=
  some {}

/- Helper lemmas shared by the claims about call sequences. -/

/-- Each accessor call returns the instance state unchanged. -/
theorem callAccessor_snd (x : FirebasePlatformLoggingNoOp) (a : Accessor) :
    (callAccessor x a).2 = x := by
  cases a <;> rfl

/-- The result of an accessor call depends only on which accessor is called,
never on the instance it is called on. -/
theorem callAccessor_fst_const (x y : FirebasePlatformLoggingNoOp)
    (a : Accessor) : (callAccessor x a).1 = (callAccessor y a).1 := by
  cases a <;> rfl

/-- The results of a call sequence are the per-accessor results taken against
the original instance, call by call. -/
theorem runCalls_fst (x : FirebasePlatformLoggingNoOp) (as : List Accessor) :
    (runCalls x as).1 = as.map (fun a => (callAccessor x a).1) := by
  induction as generalizing x with
  | nil => rfl
  | cons a rest ih =>
      simp only [runCalls, List.map_cons]
      rw [callAccessor_snd, ih]

/-- Claim C1: for every constructed `FirebasePlatformLoggingNoOp` instance
`x`, `x.IsLoggingAvailable()` returns `false`, on every call. -/
theorem isLoggingAvailable_false (x : FirebasePlatformLoggingNoOp) :
    x.IsLoggingAvailable = false := rfl

/-- Witness for C1 at a concrete instance. -/
theorem isLoggingAvailable_false_witness :
    FirebasePlatformLoggingNoOp.IsLoggingAvailable {} = false :=
  isLoggingAvailable_false {}

/-- Claim C2: for every constructed `FirebasePlatformLoggingNoOp` instance
`x`, `x.GetUserAgent()` returns the empty string, on every call. -/
theorem getUserAgent_empty (x : FirebasePlatformLoggingNoOp) :
    x.GetUserAgent = "" := rfl

/-- Witness for C2 at a concrete instance. -/
theorem getUserAgent_empty_witness :
    FirebasePlatformLoggingNoOp.GetUserAgent {} = "" :=
  getUserAgent_empty {}

/-- Claim C3: for every constructed `FirebasePlatformLoggingNoOp` instance
`x`, `x.GetHeartbeat()` returns the empty string, on every call. -/
theorem getHeartbeat_empty (x : FirebasePlatformLoggingNoOp) :
    x.GetHeartbeat = "" := rfl

/-- Witness for C3 at a concrete instance. -/
theorem getHeartbeat_empty_witness :
    FirebasePlatformLoggingNoOp.GetHeartbeat {} = "" :=
  getHeartbeat_empty {}

/-- Claim C4: for every constructed `FirebasePlatformLoggingNoOp` instance
`x`, `x.IsGmpAppIdAvailable()` returns `false`, on every call. -/
theorem isGmpAppIdAvailable_false (x : FirebasePlatformLoggingNoOp) :
    x.IsGmpAppIdAvailable = false := rfl

/-- Witness for C4 at a concrete instance. -/
theorem isGmpAppIdAvailable_false_witness :
    FirebasePlatformLoggingNoOp.IsGmpAppIdAvailable {} = false :=
  isGmpAppIdAvailable_false {}

/-- Claim C5: for every constructed `FirebasePlatformLoggingNoOp` instance
`x`, `x.GetGmpAppId()` returns the empty string, on every call. -/
theorem getGmpAppId_empty (x : FirebasePlatformLoggingNoOp) :
    x.GetGmpAppId = "" := rfl

/-- Witness for C5 at a concrete instance. -/
theorem getGmpAppId_empty_witness :
    FirebasePlatformLoggingNoOp.GetGmpAppId {} = "" :=
  getGmpAppId_empty {}

/-- Claim C6: for every constructed `FirebasePlatformLoggingNoOp` instance
`x` and every finite sequence of accessor calls on it, in any order and with
any repetitions, any two calls in the sequence that invoke the same accessor
yield the same result (no state drift between calls). -/
theorem runCalls_same_accessor_same_result
    (x : FirebasePlatformLoggingNoOp) (as : List Accessor)
    (i j : Nat) (hi : i < as.length) (hj : j < as.length)
    (hi2 : i < (runCalls x as).1.length) (hj2 : j < (runCalls x as).1.length)
    (hsame : as.get ⟨i, hi⟩ = as.get ⟨j, hj⟩) :
    (runCalls x as).1.get ⟨i, hi2⟩ = (runCalls x as).1.get ⟨j, hj2⟩ := by
  simp only [List.get_eq_getElem] at hsame ⊢
  simp only [runCalls_fst, List.getElem_map]
  rw [hsame]

/-- Witness for C6: on the concrete call sequence
`[isLoggingAvailable, getUserAgent, isLoggingAvailable]`, the first and the
third call (both to `IsLoggingAvailable`) yield the same result. -/
theorem runCalls_same_accessor_same_result_witness :
    (runCalls {} [Accessor.isLoggingAvailable, Accessor.getUserAgent,
        Accessor.isLoggingAvailable]).1.get ⟨0, by decide⟩ =
      (runCalls {} [Accessor.isLoggingAvailable, Accessor.getUserAgent,
        Accessor.isLoggingAvailable]).1.get ⟨2, by decide⟩ :=
  runCalls_same_accessor_same_result {}
    [Accessor.isLoggingAvailable, Accessor.getUserAgent,
      Accessor.isLoggingAvailable]
    0 2 (by decide) (by decide) (by decide) (by decide) (by decide)

/-- Claim C7: every call to any of the five accessors leaves the instance's
state entirely unchanged, and hence so does any finite sequence of such
calls. -/
theorem accessor_calls_preserve_state
    (x : FirebasePlatformLoggingNoOp) (a : Accessor) (as : List Accessor) :
    (callAccessor x a).2 = x ∧ (runCalls x as).2 = x := by
  constructor
  · exact callAccessor_snd x a
  · induction as generalizing x with
    | nil => rfl
    | cons b rest ih => simp only [runCalls]

/-- Witness for C7 at a concrete instance, accessor and call sequence. -/
theorem accessor_calls_preserve_state_witness :
    (callAccessor {} Accessor.getHeartbeat).2 = {} ∧
      (runCalls {} [Accessor.getGmpAppId, Accessor.isGmpAppIdAvailable]).2 =
        {} :=
  accessor_calls_preserve_state {} Accessor.getHeartbeat
    [Accessor.getGmpAppId, Accessor.isGmpAppIdAvailable]

/-- Claim C8: the factory `CreateNoOpFirebasePlatformLogging()` never returns
a null handle; it yields a freshly constructed `FirebasePlatformLoggingNoOp`
instance (spec-modelled: the factory body is declared in the header but not
provided in the source). -/
theorem createNoOpFirebasePlatformLogging_not_null :
    CreateNoOpFirebasePlatformLogging ≠ none ∧
      CreateNoOpFirebasePlatformLogging =
        some (FirebasePlatformLoggingNoOp.mk) := by
  refine ⟨?_, rfl⟩
  intro h
  exact Option.noConfusion h

/-- Claim C10: the availability flags are mutually consistent with the
identifier accessors: `IsLoggingAvailable()` is `false` exactly when
`GetUserAgent()` and `GetHeartbeat()` are both empty, and
`IsGmpAppIdAvailable()` is `false` exactly when `GetGmpAppId()` is empty. -/
theorem availability_consistent (x : FirebasePlatformLoggingNoOp) :
    (x.IsLoggingAvailable = false ↔
      (x.GetUserAgent = "" ∧ x.GetHeartbeat = "")) ∧
    (x.IsGmpAppIdAvailable = false ↔ x.GetGmpAppId = "") := by
  refine ⟨⟨fun _ => ⟨rfl, rfl⟩, fun _ => rfl⟩, ⟨fun _ => rfl, fun _ => rfl⟩⟩

/-- Witness for C10 at a concrete instance. -/
theorem availability_consistent_witness :
    (FirebasePlatformLoggingNoOp.IsLoggingAvailable {} = false ↔
      (FirebasePlatformLoggingNoOp.GetUserAgent {} = "" ∧
        FirebasePlatformLoggingNoOp.GetHeartbeat {} = "")) ∧
    (FirebasePlatformLoggingNoOp.IsGmpAppIdAvailable {} = false ↔
      FirebasePlatformLoggingNoOp.GetGmpAppId {} = "") :=
  availability_consistent {}
